import Mathlib

/-!
# Solar Microgrid dashboard: verified model of the telemetry engine

Shallow embedding of the core of `demo sih/deploy-streamlit.py`:

* `generate_historical_data` (lines 238-293): the synthetic telemetry
  series.  The numpy noise draws (`np.random.normal`) are modelled as an
  arbitrary real-valued draw per field and index, collected in a
  `NoiseDraws` record; `np.sin` is `Real.sin`.  All intermediate arrays
  (`generation`, `storage_soc`, `load`, `efficiency`, `grid_power`,
  `health_score`, ...) become functions `ℕ → ℝ` of the index, and the
  stored DataFrame row becomes `EnergySample` / `WeatherSample`.
* `check_alerts` (lines 459-532): the alert evaluator, over exact
  rationals; alert messages become an inductive type (the grid-mode
  message carries the interpolated grid power).
* `predict_load_management` (lines 386-424): the load-deficit predictor
  over a list of samples, returning `none` exactly when the current
  index is out of range (where `iloc[current_idx]` would raise).
* the simulation-clock index expression of `main_dashboard` (line 806).
-/

namespace SolarMicrogrid

/-! ## Telemetry series generator (`generate_historical_data`) -/

/-- One draw of `np.random.normal(0, σ, 1000)` per field, indexed by
sample position.  The draws are kept abstract: every theorem about the
generator quantifies over them, i.e. holds for any values the noise may
take. -/
structure NoiseDraws where
  genNoise : ℕ → ℝ
  socNoise : ℕ → ℝ
  loadNoise : ℕ → ℝ
  effNoise : ℕ → ℝ
  tempNoise : ℕ → ℝ
  irrNoise : ℕ → ℝ

noncomputable section

/-- The diurnal phase driver `np.sin(2 * np.pi * hours / 24)` at index `i`. -/
def diurnal (i : ℕ) : ℝ := Real.sin (2 * Real.pi * i / 24)

/-- `generation = 1800 + 600*sin(...) + noise; generation = np.maximum(0, generation)`
(lines 247-248), before the night mask. -/
def generationDay (nz : NoiseDraws) (i : ℕ) : ℝ :=
  max 0 (1800 + 600 * diurnal i + nz.genNoise i)

/-- `night_mask = (hours % 24) >= 18` (line 252). -/
def night_mask (i : ℕ) : Prop := 18 ≤ i % 24

instance : DecidablePred night_mask := fun i => by unfold night_mask; infer_instance

/-- `generation[night_mask] = 0` (line 253): the final generation array. -/
def generation (nz : NoiseDraws) (i : ℕ) : ℝ :=
  if night_mask i then 0 else generationDay nz i

/-- `storage_soc = 70 + 20*sin(...) + noise` (line 255), the raw
(pre-clip) array. -/
def storage_soc (nz : NoiseDraws) (i : ℕ) : ℝ :=
  70 + 20 * diurnal i + nz.socNoise i

/-- `load = 1500 + 400*sin(...) + noise` (line 256), the raw array. -/
def load (nz : NoiseDraws) (i : ℕ) : ℝ :=
  1500 + 400 * diurnal i + nz.loadNoise i

/-- `efficiency = 85 + 10*sin(...) + noise` (line 257), the raw array. -/
def efficiency (nz : NoiseDraws) (i : ℕ) : ℝ :=
  85 + 10 * diurnal i + nz.effNoise i

/-- `grid_power = np.maximum(0, load - generation - storage_soc * 10)`
(line 260).  Note: uses the raw `load` and `storage_soc` arrays, not the
clipped columns stored in the DataFrame. -/
def grid_power_solar (nz : NoiseDraws) (i : ℕ) : ℝ :=
  max 0 (load nz i - generation nz i - storage_soc nz i * 10)

/-- `grid_power = np.where(generation == 0, load, grid_power)` (line 261):
full grid when no solar.  Again the raw `load`. -/
def grid_power (nz : NoiseDraws) (i : ℕ) : ℝ :=
  if generation nz i = 0 then load nz i else grid_power_solar nz i

/-- `health_score` after the SOC penalty (line 265): start at 100,
subtract 30 where raw `storage_soc < 30`. -/
def health_score_1 (nz : NoiseDraws) (i : ℕ) : ℝ :=
  if storage_soc nz i < 30 then 100 - 30 else 100

/-- `health_score` after the efficiency penalty (line 266): subtract 20
where raw `efficiency < 75`. -/
def health_score_2 (nz : NoiseDraws) (i : ℕ) : ℝ :=
  if efficiency nz i < 75 then health_score_1 nz i - 20 else health_score_1 nz i

/-- `health_score` after the grid-dependency penalty (line 267): subtract
10 where `generation == 0`. -/
def health_score_3 (nz : NoiseDraws) (i : ℕ) : ℝ :=
  if generation nz i = 0 then health_score_2 nz i - 10 else health_score_2 nz i

/-- `np.clip(x, lo, hi)`. -/
def clip (x lo hi : ℝ) : ℝ := min hi (max lo x)

/-- `health_score = np.clip(health_score, 0, 100)` (line 268). -/
def health_score (nz : NoiseDraws) (i : ℕ) : ℝ :=
  clip (health_score_3 nz i) 0 100

/-- `temperature = 25 + 15*sin(...) + noise` (line 271). -/
def temperature (nz : NoiseDraws) (i : ℕ) : ℝ :=
  25 + 15 * diurnal i + nz.tempNoise i

/-- `irradiance = np.maximum(0, 1000*sin(...) + noise)` (lines 272-273). -/
def irradiance (nz : NoiseDraws) (i : ℕ) : ℝ :=
  max 0 (1000 * diurnal i + nz.irrNoise i)

/-- One row of `energy_df` (lines 276-285).  The stored columns clip SOC
and efficiency to `[0,100]` and the load to `≥ 0`; `grid_power_watt` and
`health_score` are stored as computed. -/
structure EnergySample where
  generation_watt : ℝ
  storage_soc_percent : ℝ
  load_watt : ℝ
  efficiency_percent : ℝ
  grid_power_watt : ℝ
  health_score : ℝ
  is_grid_mode : Prop

/-- Row `i` of `energy_df`:
`generation_watt = generation`, `storage_soc_percent = np.clip(storage_soc, 0, 100)`,
`load_watt = np.maximum(0, load)`, `efficiency_percent = np.clip(efficiency, 0, 100)`,
`grid_power_watt = grid_power`, `health_score`, `is_grid_mode = (generation == 0)`. -/
def energyRow (nz : NoiseDraws) (i : ℕ) : EnergySample where
  generation_watt := generation nz i
  storage_soc_percent := clip (storage_soc nz i) 0 100
  load_watt := max 0 (load nz i)
  efficiency_percent := clip (efficiency nz i) 0 100
  grid_power_watt := grid_power nz i
  health_score := health_score nz i
  is_grid_mode := generation nz i = 0

/-- One row of `weather_df` (lines 287-291). -/
structure WeatherSample where
  temp_c : ℝ
  irradiance_wm2 : ℝ

/-- Row `i` of `weather_df`. -/
def weatherRow (nz : NoiseDraws) (i : ℕ) : WeatherSample where
  temp_c := temperature nz i
  irradiance_wm2 := irradiance nz i

/-- `generate_historical_data` (lines 238-293): builds the noise draws
from a single seeded pseudo-random stream (`np.random.seed(seed)` once,
then the per-field `np.random.normal` calls in source order consume
disjoint segments of the stream) and returns the two series.  `prng`
abstracts the generator: `prng seed` is the infinite draw stream
determined by the seed.  The series has 1000 rows; rows are exposed as
functions of the index. -/
def generate_historical_data (prng : ℕ → ℕ → ℝ) (seed : ℕ) :
    (ℕ → EnergySample) × (ℕ → WeatherSample) :=
  let stream := prng seed
  let nz : NoiseDraws :=
    { genNoise := fun i => stream i
      socNoise := fun i => stream (1000 + i)
      loadNoise := fun i => stream (2000 + i)
      effNoise := fun i => stream (3000 + i)
      tempNoise := fun i => stream (4000 + i)
      irrNoise := fun i => stream (5000 + i) }
  (fun i => energyRow nz i, fun i => weatherRow nz i)

/-- `len(energy_df)` — `hours = np.arange(1000)` (line 244). -/
def seriesLength : ℕ := 1000

end

/-! ## Alert evaluator (`check_alerts`, lines 459-532)

The dashboard hands `check_alerts` two plain dicts built from the
current rows (lines 812-825).  We model the dict values as exact
rationals and the messages as an inductive type; the grid-mode message
interpolates the grid power (line 504), so its constructor carries that
value. -/

/-- The `energy_data` dict passed to `check_alerts` (lines 812-820). -/
structure EnergyData where
  generation_watt : ℚ
  storage_soc_percent : ℚ
  load_watt : ℚ
  efficiency_percent : ℚ
  grid_power_watt : ℚ
  health_score : ℚ
  is_grid_mode : Bool
deriving DecidableEq

/-- The `weather_data` dict passed to `check_alerts` (lines 822-825). -/
structure WeatherData where
  temp_c : ℚ
  irradiance_wm2 : ℚ
deriving DecidableEq

/-- The type field of an alert dict. -/
inductive AlertType where
  | critical
  | warning
  | info
  | success
deriving DecidableEq

/-- The message field of an alert dict, one constructor per literal
message in `check_alerts`; `gridModeActive` carries the grid power the
message interpolates. -/
inductive AlertMessage where
  | lowBatteryCritical
  | batteryBelow50
  | highTemperatureCritical
  | temperatureRising
  | lowGeneration
  | gridModeActive (grid_power_watt : ℚ)
  | lowEfficiency
  | lowHealth
  | allSystemsHealthy
deriving DecidableEq

/-- An alert dict, holding a type, a message and a timestamp.
Every alert carries the evaluation time (`datetime.now()` at the top of
`check_alerts`), modelled as an abstract value passed in explicitly. -/
structure Alert where
  type_ : AlertType
  message : AlertMessage
  timestamp : ℚ
deriving DecidableEq

/-- Rules 1-6 of `check_alerts` (lines 464-522): the list accumulated
before the all-healthy fallback.  Each category contributes its alerts
in source order. -/
def firedAlerts (energy_data : EnergyData) (weather_data : WeatherData)
    (current_time : ℚ) : List Alert :=
  (if energy_data.storage_soc_percent < 30 then
      [⟨.critical, .lowBatteryCritical, current_time⟩]
    else if energy_data.storage_soc_percent < 50 then
      [⟨.warning, .batteryBelow50, current_time⟩]
    else []) ++
  (if weather_data.temp_c > 40 then
      [⟨.critical, .highTemperatureCritical, current_time⟩]
    else if weather_data.temp_c > 35 then
      [⟨.warning, .temperatureRising, current_time⟩]
    else []) ++
  (if energy_data.generation_watt < 1000 ∧ energy_data.generation_watt > 0 then
      [⟨.warning, .lowGeneration, current_time⟩]
    else []) ++
  (if energy_data.is_grid_mode then
      [⟨.info, .gridModeActive energy_data.grid_power_watt, current_time⟩]
    else []) ++
  (if energy_data.efficiency_percent < 75 then
      [⟨.warning, .lowEfficiency, current_time⟩]
    else []) ++
  (if energy_data.health_score < 70 then
      [⟨.warning, .lowHealth, current_time⟩]
    else [])

/-- `check_alerts` (lines 459-532): rules 1-6, then `if not alerts:`
append the single success alert (lines 525-530). -/
def check_alerts (energy_data : EnergyData) (weather_data : WeatherData)
    (current_time : ℚ) : List Alert :=
  let alerts := firedAlerts energy_data weather_data current_time
  if alerts = [] then [⟨.success, .allSystemsHealthy, current_time⟩] else alerts

/-! ## Load-deficit predictor (`predict_load_management`, lines 386-424)

The predictor reads the `load_watt`, `generation_watt`,
`storage_soc_percent`, `is_grid_mode` and `grid_power_watt` columns of
`energy_df`, so the series is a list of `EnergyData` rows.  In Python,
`energy_df.iloc[current_idx]` raises when `current_idx` is out of
range, while the window slice clamps; the model returns `none` exactly
in the raising case. -/

/-- A recommendation string, one constructor per literal appended in
`predict_load_management`; `currentGridConsumption` carries the grid
power the message interpolates (line 416). -/
inductive Recommendation where
  | reduceNonEssentialLoads
  | activateEnergySavingMode
  | scheduleHeavyLoadsDuringPeak
  | switchToGridPower
  | reduceLoadBy20Percent
  | solarResumesAt6AM
  | currentGridConsumption (grid_power_watt : ℚ)
deriving DecidableEq

/-- The dict returned by `predict_load_management` (lines 418-424). -/
structure Prediction where
  energy_deficit : ℚ
  recommendations : List Recommendation
  next_6h_generation : ℚ
  next_6h_load : ℚ
  grid_mode : Bool
deriving DecidableEq

/-- `recent_data = energy_df.iloc[max(0, current_idx-24):current_idx+1]`
(line 389).  Natural-number subtraction is exactly the `max(0, ·-24)`
clamp; the slice keeps rows `max(0, current_idx-24) .. current_idx`. -/
def recent_data (energy_df : List EnergyData) (current_idx : ℕ) : List EnergyData :=
  (energy_df.drop (current_idx - 24)).take (current_idx + 1 - (current_idx - 24))

/-- The straight-line body of `predict_load_management` (lines 389-424)
once `current = energy_df.iloc[current_idx]` has been fetched:
`0.3 = 3/10`, `1.1 = 11/10`, `max(0, ·)` for the deficit, the three
recommendation rules appended in source order. -/
def predictCore (energy_df : List EnergyData) (current_idx : ℕ)
    (current : EnergyData) : Prediction :=
  let recent := recent_data energy_df current_idx
  let avg_load := (recent.map (·.load_watt)).sum / recent.length
  let avg_generation := (recent.map (·.generation_watt)).sum / recent.length
  let current_soc := current.storage_soc_percent
  let next_6h_generation := avg_generation * (3 / 10)
  let next_6h_load := avg_load * (11 / 10)
  let energy_deficit := max 0 (next_6h_load - next_6h_generation - current_soc * 10)
  let recommendations :=
    (if energy_deficit > 500 then
        [Recommendation.reduceNonEssentialLoads,
         Recommendation.activateEnergySavingMode,
         Recommendation.scheduleHeavyLoadsDuringPeak]
      else []) ++
    (if current_soc < 40 then
        [Recommendation.switchToGridPower,
         Recommendation.reduceLoadBy20Percent]
      else []) ++
    (if current.is_grid_mode then
        [Recommendation.solarResumesAt6AM,
         Recommendation.currentGridConsumption current.grid_power_watt]
      else [])
  { energy_deficit := energy_deficit
    recommendations := recommendations
    next_6h_generation := next_6h_generation
    next_6h_load := next_6h_load
    grid_mode := current.is_grid_mode }

/-- `predict_load_management` (lines 386-424).  `none` models the
`IndexError` of `energy_df.iloc[current_idx]` when the index is out of
range; otherwise the body runs on the fetched current sample. -/
def predict_load_management (energy_df : List EnergyData) (current_idx : ℕ) :
    Option Prediction :=
  match energy_df[current_idx]? with
  | none => none
  | some current => some (predictCore energy_df current_idx current)

/-! ## Simulation clock (`main_dashboard`, line 806)

`current_idx = int((datetime.now() - st.session_state.start_time).total_seconds() // 5) % len(energy_df)`.
Elapsed seconds are a nonnegative real quantity, modelled as an exact
rational; Python float `//` is floor division and `%` on ints follows
the sign of the modulus, matching `Int.emod` with a positive modulus. -/

/-- The clock index: floor of elapsed seconds over 5, modulo the series
length. -/
def current_index (elapsed_seconds : ℚ) (series_length : ℕ) : ℤ :=
  ⌊elapsed_seconds / 5⌋ % series_length

/-! ## Concrete noise assignments used by witnesses and counterexamples -/

/-- All noise draws zero. -/
def zeroNoise : NoiseDraws where
  genNoise := fun _ => 0
  socNoise := fun _ => 0
  loadNoise := fun _ => 0
  effNoise := fun _ => 0
  tempNoise := fun _ => 0
  irrNoise := fun _ => 0

noncomputable section

/-- Noise draws whose load component cancels the diurnal term and drives
the raw load to the constant value `-100`. -/
def cNoiseLoad : NoiseDraws where
  genNoise := fun _ => 0
  socNoise := fun _ => 0
  loadNoise := fun i => -1600 - 400 * diurnal i
  effNoise := fun _ => 0
  tempNoise := fun _ => 0
  irrNoise := fun _ => 0

/-- Noise draws with a large SOC draw (raw SOC `150` at index 0, above
the storage clip) and a generation draw keeping daytime generation small
but positive. -/
def cNoiseSoc : NoiseDraws where
  genNoise := fun _ => -1700
  socNoise := fun _ => 80
  loadNoise := fun _ => 0
  effNoise := fun _ => 0
  tempNoise := fun _ => 0
  irrNoise := fun _ => 0

end

/-! ## Helper lemmas -/

lemma clip_le (x lo hi : ℝ) : clip x lo hi ≤ hi := min_le_left _ _

lemma le_clip (x lo hi : ℝ) (h : lo ≤ hi) : lo ≤ clip x lo hi :=
  le_min h (le_max_left _ _)

lemma generation_nonneg (nz : NoiseDraws) (i : ℕ) : 0 ≤ generation nz i := by
  unfold generation generationDay
  split
  · exact le_refl 0
  · exact le_max_left _ _

lemma load_cNoiseLoad (i : ℕ) : load cNoiseLoad i = -100 := by
  simp only [load, cNoiseLoad]
  ring

lemma night_mask_generation (nz : NoiseDraws) (i : ℕ) (h : 18 ≤ i % 24) :
    generation nz i = 0 := by
  unfold generation
  exact if_pos h

/-! ## Claim theorems -/

/-- C9: the simulation clock index is the floor of elapsed seconds over
5, reduced modulo the series length, hence periodic: evaluated at
`k * 5` elapsed seconds it equals `k mod series_length`, for every
natural `k` and series length. -/
theorem current_index_periodic (k series_length : ℕ) :
    current_index ((k : ℚ) * 5) series_length = (k : ℤ) % series_length := by
  unfold current_index
  have h : ((k : ℚ) * 5) / 5 = (k : ℚ) := by ring
  rw [h, Int.floor_natCast]

/-- C5: on an energy sample with SOC 20, generation 1500, efficiency
90, health 95, not in grid mode, and a weather sample at 20 degrees,
`check_alerts` returns exactly one alert: the critical battery alert
(for any load, grid power, irradiance and evaluation time). -/
theorem check_alerts_low_battery (lw gp irr t : ℚ) :
    check_alerts
      { generation_watt := 1500, storage_soc_percent := 20, load_watt := lw,
        efficiency_percent := 90, grid_power_watt := gp, health_score := 95,
        is_grid_mode := false }
      { temp_c := 20, irradiance_wm2 := irr } t =
      [⟨AlertType.critical, AlertMessage.lowBatteryCritical, t⟩] := by
  norm_num [check_alerts, firedAlerts]

/-- C4: series generation is deterministic in the seed: for one seeded
pseudo-random stream, two generation calls with equal seeds agree on
every energy and weather sample at every index. -/
theorem generate_historical_data_deterministic (prng : ℕ → ℕ → ℝ)
    (seed1 seed2 : ℕ) (h : seed1 = seed2) :
    ∀ i, (generate_historical_data prng seed1).1 i =
          (generate_historical_data prng seed2).1 i ∧
         (generate_historical_data prng seed1).2 i =
          (generate_historical_data prng seed2).2 i := by
  subst h
  exact fun _ => ⟨rfl, rfl⟩

/-- Witness for C4 at the concrete stream `fun _ _ => 0`, seed `42`,
index `5`. -/
theorem generate_historical_data_deterministic_witness :
    (generate_historical_data (fun _ _ => 0) 42).1 5 =
      (generate_historical_data (fun _ _ => 0) 42).1 5 ∧
    (generate_historical_data (fun _ _ => 0) 42).2 5 =
      (generate_historical_data (fun _ _ => 0) 42).2 5 :=
  generate_historical_data_deterministic (fun _ _ => 0) 42 42 rfl 5

lemma firedAlerts_type_ne_success (e : EnergyData) (w : WeatherData) (t : ℚ) :
    ∀ a ∈ firedAlerts e w t, a.type_ ≠ AlertType.success := by
  intro a ha
  unfold firedAlerts at ha
  split_ifs at ha <;> simp_all <;>
    rcases ha with rfl | rfl | rfl | rfl | rfl | rfl <;> simp

/-- C6: for every input, `check_alerts` contains a success alert iff
rules 1-6 produced nothing; when that happens the result is exactly the
single all-healthy alert, so a success alert never appears alongside
any other; the result is never empty; and on the healthy concrete
sample (SOC 90, temperature 20, generation 1500, efficiency 90, health
95, not grid mode) the result is exactly one success alert. -/
theorem check_alerts_success_characterization (e : EnergyData) (w : WeatherData) (t : ℚ) :
    ((∃ a ∈ check_alerts e w t, a.type_ = AlertType.success) ↔
      firedAlerts e w t = []) ∧
    (firedAlerts e w t = [] →
      check_alerts e w t = [⟨AlertType.success, AlertMessage.allSystemsHealthy, t⟩]) ∧
    check_alerts e w t ≠ [] ∧
    check_alerts
      { generation_watt := 1500, storage_soc_percent := 90, load_watt := 1000,
        efficiency_percent := 90, grid_power_watt := 0, health_score := 95,
        is_grid_mode := false }
      { temp_c := 20, irradiance_wm2 := 500 } t =
      [⟨AlertType.success, AlertMessage.allSystemsHealthy, t⟩] := by
  refine ⟨⟨fun hmem => ?_, fun hempty => ?_⟩, fun hempty => ?_, ?_, ?_⟩
  · by_contra hne
    obtain ⟨a, ha, hsucc⟩ := hmem
    rw [check_alerts, if_neg hne] at ha
    exact firedAlerts_type_ne_success e w t a ha hsucc
  · exact ⟨_, by rw [check_alerts, hempty, if_pos rfl]; exact List.mem_singleton_self _, rfl⟩
  · rw [check_alerts, hempty, if_pos rfl]
  · by_cases hc : firedAlerts e w t = []
    · rw [check_alerts, if_pos hc]
      simp
    · rw [check_alerts, if_neg hc]
      exact hc
  · norm_num [check_alerts, firedAlerts]

/-- C10: for every series index and any noise draws, the stored health
score is at least 40 (the three penalties subtract at most 60 from 100,
so the lower clip at 0 is never reached) and lies in
`{40, 50, 60, 70, 80, 90, 100}`. -/
theorem health_score_range (nz : NoiseDraws) (i : ℕ) (h : i < seriesLength) :
    40 ≤ (energyRow nz i).health_score ∧
      (energyRow nz i).health_score ∈ ({40, 50, 60, 70, 80, 90, 100} : Set ℝ) := by
  have key : 40 ≤ health_score nz i ∧
      health_score nz i ∈ ({40, 50, 60, 70, 80, 90, 100} : Set ℝ) := by
    unfold health_score clip health_score_3 health_score_2 health_score_1
    split_ifs <;> norm_num [min_def, max_def]
  exact key

/-- Witness for C10 at the all-zero noise draws and index 3. -/
theorem health_score_range_witness :
    40 ≤ (energyRow zeroNoise 3).health_score ∧
      (energyRow zeroNoise 3).health_score ∈ ({40, 50, 60, 70, 80, 90, 100} : Set ℝ) :=
  health_score_range zeroNoise 3 (by norm_num [seriesLength])

/-- C2 (amended): for every series index and any noise draws, the
stored SOC, efficiency and health score lie in `[0, 100]` and the
generation is nonnegative; the grid power is nonnegative whenever the
generation is nonzero (in grid mode it equals the raw load, which the
noise can drive negative). -/
theorem sample_bounds (nz : NoiseDraws) (i : ℕ) (h : i < seriesLength) :
    0 ≤ (energyRow nz i).storage_soc_percent ∧
    (energyRow nz i).storage_soc_percent ≤ 100 ∧
    0 ≤ (energyRow nz i).efficiency_percent ∧
    (energyRow nz i).efficiency_percent ≤ 100 ∧
    0 ≤ (energyRow nz i).health_score ∧
    (energyRow nz i).health_score ≤ 100 ∧
    0 ≤ (energyRow nz i).generation_watt ∧
    ((energyRow nz i).generation_watt ≠ 0 → 0 ≤ (energyRow nz i).grid_power_watt) := by
  refine ⟨le_clip _ _ _ (by norm_num), clip_le _ _ _,
    le_clip _ _ _ (by norm_num), clip_le _ _ _,
    le_clip _ _ _ (by norm_num), clip_le _ _ _,
    generation_nonneg nz i, fun hg => ?_⟩
  have hg' : generation nz i ≠ 0 := hg
  show 0 ≤ grid_power nz i
  rw [grid_power, if_neg hg']
  exact le_max_left _ _

/-- Witness for C2 (amended) at the all-zero noise draws and index 3. -/
theorem sample_bounds_witness :
    0 ≤ (energyRow zeroNoise 3).storage_soc_percent ∧
    (energyRow zeroNoise 3).storage_soc_percent ≤ 100 ∧
    0 ≤ (energyRow zeroNoise 3).efficiency_percent ∧
    (energyRow zeroNoise 3).efficiency_percent ≤ 100 ∧
    0 ≤ (energyRow zeroNoise 3).health_score ∧
    (energyRow zeroNoise 3).health_score ≤ 100 ∧
    0 ≤ (energyRow zeroNoise 3).generation_watt ∧
    ((energyRow zeroNoise 3).generation_watt ≠ 0 →
      0 ≤ (energyRow zeroNoise 3).grid_power_watt) :=
  sample_bounds zeroNoise 3 (by norm_num [seriesLength])

lemma cNoiseLoad_night (i : ℕ) (h : 18 ≤ i % 24) :
    (energyRow cNoiseLoad i).is_grid_mode ∧
    (energyRow cNoiseLoad i).grid_power_watt = -100 ∧
    (energyRow cNoiseLoad i).load_watt = 0 := by
  have hg : generation cNoiseLoad i = 0 := night_mask_generation _ _ h
  refine ⟨hg, ?_, ?_⟩
  · show grid_power cNoiseLoad i = -100
    rw [grid_power, if_pos hg, load_cNoiseLoad]
  · show max 0 (load cNoiseLoad i) = 0
    rw [load_cNoiseLoad]
    exact max_eq_left (by norm_num)

/-- Counterexample for C2 as stated: with noise draws that push the raw
load to `-100`, the grid-mode sample at the in-range index 66 stores a
negative `grid_power_watt`. -/
theorem sample_bounds_cex :
    66 < seriesLength ∧ ¬ 0 ≤ (energyRow cNoiseLoad 66).grid_power_watt := by
  obtain ⟨-, hgp, -⟩ := cNoiseLoad_night 66 (by norm_num)
  refine ⟨by norm_num [seriesLength], ?_⟩
  rw [hgp]
  norm_num

/-- C1 (amended): for every series index and any noise draws,
`is_grid_mode` holds iff `generation_watt = 0`; in grid mode the stored
grid power equals the raw (pre-clamp) load; otherwise it equals
`max 0 (rawLoad - generation_watt - rawSOC * 10)` — the raw load and
raw SOC, not the clamped stored columns. -/
theorem grid_mode_characterization (nz : NoiseDraws) (i : ℕ) (h : i < seriesLength) :
    ((energyRow nz i).is_grid_mode ↔ (energyRow nz i).generation_watt = 0) ∧
    ((energyRow nz i).is_grid_mode →
      (energyRow nz i).grid_power_watt = load nz i) ∧
    (¬ (energyRow nz i).is_grid_mode →
      (energyRow nz i).grid_power_watt =
        max 0 (load nz i - (energyRow nz i).generation_watt - storage_soc nz i * 10)) := by
  refine ⟨Iff.rfl, fun hg => ?_, fun hg => ?_⟩
  · have hg' : generation nz i = 0 := hg
    show grid_power nz i = load nz i
    rw [grid_power, if_pos hg']
  · have hg' : ¬ generation nz i = 0 := hg
    show grid_power nz i = _
    rw [grid_power, if_neg hg']
    rfl

/-- Witness for C1 (amended) at the all-zero noise draws and index 3. -/
theorem grid_mode_characterization_witness :
    ((energyRow zeroNoise 3).is_grid_mode ↔ (energyRow zeroNoise 3).generation_watt = 0) ∧
    ((energyRow zeroNoise 3).is_grid_mode →
      (energyRow zeroNoise 3).grid_power_watt = load zeroNoise 3) ∧
    (¬ (energyRow zeroNoise 3).is_grid_mode →
      (energyRow zeroNoise 3).grid_power_watt =
        max 0 (load zeroNoise 3 - (energyRow zeroNoise 3).generation_watt -
          storage_soc zeroNoise 3 * 10)) :=
  grid_mode_characterization zeroNoise 3 (by norm_num [seriesLength])

lemma diurnal_zero : diurnal 0 = 0 := by
  simp [diurnal]

lemma generation_cNoiseSoc_zero : generation cNoiseSoc 0 = 100 := by
  have hnm : ¬ night_mask 0 := by norm_num [night_mask]
  rw [generation, if_neg hnm, generationDay, diurnal_zero]
  rw [show (1800 + 600 * 0 + cNoiseSoc.genNoise 0 : ℝ) = 100 by norm_num [cNoiseSoc]]
  exact max_eq_right (by norm_num)

lemma energyRow_cNoiseSoc_zero :
    ¬ (energyRow cNoiseSoc 0).is_grid_mode ∧
    (energyRow cNoiseSoc 0).grid_power_watt = 0 ∧
    (energyRow cNoiseSoc 0).load_watt = 1500 ∧
    (energyRow cNoiseSoc 0).generation_watt = 100 ∧
    (energyRow cNoiseSoc 0).storage_soc_percent = 100 := by
  have hgen := generation_cNoiseSoc_zero
  have hload : load cNoiseSoc 0 = 1500 := by
    rw [load, diurnal_zero]
    norm_num [cNoiseSoc]
  have hsoc : storage_soc cNoiseSoc 0 = 150 := by
    rw [storage_soc, diurnal_zero]
    norm_num [cNoiseSoc]
  have hne : generation cNoiseSoc 0 ≠ 0 := by rw [hgen]; norm_num
  refine ⟨hne, ?_, ?_, hgen, ?_⟩
  · show grid_power cNoiseSoc 0 = 0
    rw [grid_power, if_neg hne, grid_power_solar, hload, hgen, hsoc]
    rw [show (1500 - 100 - 150 * 10 : ℝ) = -100 by norm_num]
    exact max_eq_left (by norm_num)
  · show max 0 (load cNoiseSoc 0) = 1500
    rw [hload]
    exact max_eq_right (by norm_num)
  · show clip (storage_soc cNoiseSoc 0) 0 100 = 100
    rw [hsoc, clip]
    rw [show max (0:ℝ) 150 = 150 from max_eq_right (by norm_num)]
    exact min_eq_left (by norm_num)

/-- Counterexample for C1 as stated: at the night index 18, with noise
driving the raw load to `-100`, the sample is in grid mode but its
stored grid power differs from the stored (clamped) `load_watt`; and at
the day index 0, with a large SOC draw, the sample is not in grid mode
and its stored grid power differs from the formula computed with the
stored (clamped) `load_watt` and `storage_soc_percent`. -/
theorem grid_mode_claim_cex :
    ((energyRow cNoiseLoad 18).is_grid_mode ∧
      (energyRow cNoiseLoad 18).grid_power_watt ≠ (energyRow cNoiseLoad 18).load_watt) ∧
    (¬ (energyRow cNoiseSoc 0).is_grid_mode ∧
      (energyRow cNoiseSoc 0).grid_power_watt ≠
        max 0 ((energyRow cNoiseSoc 0).load_watt - (energyRow cNoiseSoc 0).generation_watt -
          (energyRow cNoiseSoc 0).storage_soc_percent * 10)) := by
  obtain ⟨hm, hgp, hlw⟩ := cNoiseLoad_night 18 (by norm_num)
  obtain ⟨hm2, hgp2, hlw2, hgen2, hsoc2⟩ := energyRow_cNoiseSoc_zero
  refine ⟨⟨hm, ?_⟩, hm2, ?_⟩
  · rw [hgp, hlw]
    norm_num
  · rw [hgp2, hlw2, hgen2, hsoc2]
    rw [show (1500 - 100 - 100 * 10 : ℝ) = 400 by norm_num]
    rw [show max (0:ℝ) 400 = 400 from max_eq_right (by norm_num)]
    norm_num

/-- C3 (amended): at every night index (`i mod 24 ≥ 18`) of the series
and for any noise draws, the stored generation is 0, the sample is in
grid mode, and the stored grid power equals the raw (pre-clamp) load —
hence equals the stored `load_watt` whenever the raw load is
nonnegative. -/
theorem night_indices_behavior (nz : NoiseDraws) (i : ℕ) (h1 : i < seriesLength)
    (h2 : 18 ≤ i % 24) :
    (energyRow nz i).generation_watt = 0 ∧
    (energyRow nz i).is_grid_mode ∧
    (energyRow nz i).grid_power_watt = load nz i ∧
    (0 ≤ load nz i → (energyRow nz i).grid_power_watt = (energyRow nz i).load_watt) := by
  have hg : generation nz i = 0 := night_mask_generation nz i h2
  have hgp : grid_power nz i = load nz i := by rw [grid_power, if_pos hg]
  refine ⟨hg, hg, hgp, fun hl => ?_⟩
  show grid_power nz i = max 0 (load nz i)
  rw [hgp, max_eq_right hl]

/-- Witness for C3 (amended) at the all-zero noise draws and night
index 18. -/
theorem night_indices_behavior_witness :
    (energyRow zeroNoise 18).generation_watt = 0 ∧
    (energyRow zeroNoise 18).is_grid_mode ∧
    (energyRow zeroNoise 18).grid_power_watt = load zeroNoise 18 ∧
    (0 ≤ load zeroNoise 18 →
      (energyRow zeroNoise 18).grid_power_watt = (energyRow zeroNoise 18).load_watt) :=
  night_indices_behavior zeroNoise 18 (by norm_num [seriesLength]) (by norm_num)

/-- Counterexample for C3 as stated: at the in-range night index 42,
with noise driving the raw load to `-100`, the stored grid power
differs from the stored `load_watt`. -/
theorem night_indices_cex :
    18 ≤ 42 % 24 ∧ 42 < seriesLength ∧
    (energyRow cNoiseLoad 42).grid_power_watt ≠ (energyRow cNoiseLoad 42).load_watt := by
  obtain ⟨-, hgp, hlw⟩ := cNoiseLoad_night 42 (by norm_num)
  refine ⟨by norm_num, by norm_num [seriesLength], ?_⟩
  rw [hgp, hlw]
  norm_num

lemma recent_data_length (energy_df : List EnergyData) (current_idx : ℕ)
    (h : current_idx < energy_df.length) :
    (recent_data energy_df current_idx).length = min current_idx 24 + 1 := by
  unfold recent_data
  rw [List.length_take, List.length_drop]
  omega

lemma recent_data_getElem (energy_df : List EnergyData) (current_idx j : ℕ)
    (hj : j < (recent_data energy_df current_idx).length) :
    (recent_data energy_df current_idx)[j]? = energy_df[current_idx - 24 + j]? := by
  have hj' : j < current_idx + 1 - (current_idx - 24) := by
    unfold recent_data at hj
    rw [List.length_take, List.length_drop] at hj
    omega
  unfold recent_data
  rw [List.getElem?_take_of_lt hj', List.getElem?_drop]

lemma sum_map_div_length (l : List EnergyData) (f : EnergyData → ℚ) (c : ℚ)
    (hne : l ≠ []) (h : ∀ s ∈ l, f s = c) :
    (l.map f).sum / (l.length : ℚ) = c := by
  have hsum : (l.map f).sum = (l.map f).length • c :=
    List.sum_eq_card_nsmul _ c (by simpa using h)
  have hlen : (l.length : ℚ) ≠ 0 :=
    Nat.cast_ne_zero.mpr (fun h0 => hne (List.length_eq_zero.mp h0))
  rw [hsum, List.length_map, nsmul_eq_mul, mul_comm, mul_div_assoc, div_self hlen,
    mul_one]

/-- C7: when every sample of the trailing window has load 1000 and
generation 0 and the current sample has SOC 50, the predictor returns
6-hour generation 0, 6-hour load 1100, energy deficit 600, and its
recommendation list starts with the three deficit-over-500
recommendations. -/
theorem predict_constant_window (energy_df : List EnergyData) (current_idx : ℕ)
    (current : EnergyData)
    (hcur : energy_df[current_idx]? = some current)
    (hwin : ∀ s ∈ recent_data energy_df current_idx,
      s.load_watt = 1000 ∧ s.generation_watt = 0)
    (hsoc : current.storage_soc_percent = 50) :
    ∃ p, predict_load_management energy_df current_idx = some p ∧
      p.next_6h_generation = 0 ∧ p.next_6h_load = 1100 ∧ p.energy_deficit = 600 ∧
      [Recommendation.reduceNonEssentialLoads, Recommendation.activateEnergySavingMode,
        Recommendation.scheduleHeavyLoadsDuringPeak] <+: p.recommendations := by
  have hlt : current_idx < energy_df.length := (List.getElem?_eq_some.mp hcur).1
  have hne : recent_data energy_df current_idx ≠ [] := by
    intro h0
    have := recent_data_length energy_df current_idx hlt
    rw [h0] at this
    simp at this
  have havgl : ((recent_data energy_df current_idx).map (·.load_watt)).sum /
      ((recent_data energy_df current_idx).length : ℚ) = 1000 :=
    sum_map_div_length _ _ _ hne (fun s hs => (hwin s hs).1)
  have havgg : ((recent_data energy_df current_idx).map (·.generation_watt)).sum /
      ((recent_data energy_df current_idx).length : ℚ) = 0 :=
    sum_map_div_length _ _ _ hne (fun s hs => (hwin s hs).2)
  refine ⟨predictCore energy_df current_idx current, ?_, ?_, ?_, ?_, ?_⟩
  · rw [predict_load_management, hcur]
  · show ((recent_data energy_df current_idx).map (·.generation_watt)).sum /
      ((recent_data energy_df current_idx).length : ℚ) * (3 / 10) = 0
    rw [havgg]
    norm_num
  · show ((recent_data energy_df current_idx).map (·.load_watt)).sum /
      ((recent_data energy_df current_idx).length : ℚ) * (11 / 10) = 1100
    rw [havgl]
    norm_num
  · show max 0 _ = 600
    rw [havgl, havgg, hsoc]
    rw [show (1000 * (11 / 10) - 0 * (3 / 10) - 50 * 10 : ℚ) = 600 by norm_num]
    exact max_eq_right (by norm_num)
  · show [Recommendation.reduceNonEssentialLoads, Recommendation.activateEnergySavingMode,
        Recommendation.scheduleHeavyLoadsDuringPeak] <+:
      (if max 0 (((recent_data energy_df current_idx).map (·.load_watt)).sum /
            ((recent_data energy_df current_idx).length : ℚ) * (11 / 10) -
          ((recent_data energy_df current_idx).map (·.generation_watt)).sum /
            ((recent_data energy_df current_idx).length : ℚ) * (3 / 10) -
          current.storage_soc_percent * 10) > 500 then
        [Recommendation.reduceNonEssentialLoads, Recommendation.activateEnergySavingMode,
         Recommendation.scheduleHeavyLoadsDuringPeak]
      else []) ++
      (if current.storage_soc_percent < 40 then
        [Recommendation.switchToGridPower, Recommendation.reduceLoadBy20Percent]
      else []) ++
      (if current.is_grid_mode then
        [Recommendation.solarResumesAt6AM,
         Recommendation.currentGridConsumption current.grid_power_watt]
      else [])
    rw [havgl, havgg, hsoc]
    rw [show (1000 * (11 / 10) - 0 * (3 / 10) - 50 * 10 : ℚ) = 600 by norm_num]
    rw [show max (0:ℚ) 600 = 600 from max_eq_right (by norm_num)]
    rw [if_pos (by norm_num : (600:ℚ) > 500), List.append_assoc]
    exact List.prefix_append _ _

/-- Witness for C7: a series of five identical samples with load 1000,
generation 0, SOC 50, evaluated at index 4. -/
theorem predict_constant_window_witness :
    ∃ p, predict_load_management
        (List.replicate 5 ⟨0, 50, 1000, 90, 1000, 90, true⟩) 4 = some p ∧
      p.next_6h_generation = 0 ∧ p.next_6h_load = 1100 ∧ p.energy_deficit = 600 ∧
      [Recommendation.reduceNonEssentialLoads, Recommendation.activateEnergySavingMode,
        Recommendation.scheduleHeavyLoadsDuringPeak] <+: p.recommendations :=
  predict_constant_window (List.replicate 5 ⟨0, 50, 1000, 90, 1000, 90, true⟩) 4
    ⟨0, 50, 1000, 90, 1000, 90, true⟩ (by decide) (by decide) rfl

/-- C8: for every series and every in-range index, the predictor
succeeds; its window has length `min current_idx 24 + 1 ≤ 25` and its
`j`-th sample is the series sample at `max(0, current_idx - 24) + j`;
at index 0 the window is exactly the one sample at index 0. -/
theorem predict_window_safe (energy_df : List EnergyData) (current_idx : ℕ)
    (h : current_idx < energy_df.length) :
    (predict_load_management energy_df current_idx).isSome = true ∧
    (recent_data energy_df current_idx).length = min current_idx 24 + 1 ∧
    (recent_data energy_df current_idx).length ≤ 25 ∧
    (∀ j < (recent_data energy_df current_idx).length,
      (recent_data energy_df current_idx)[j]? = energy_df[current_idx - 24 + j]?) ∧
    (current_idx = 0 → ∃ a, energy_df[0]? = some a ∧ recent_data energy_df 0 = [a]) := by
  have hlen := recent_data_length energy_df current_idx h
  refine ⟨?_, hlen, ?_, fun j hj => recent_data_getElem energy_df current_idx j hj,
    fun h0 => ?_⟩
  · rw [predict_load_management, List.getElem?_eq_getElem h]
    rfl
  · rw [hlen]
    omega
  · subst h0
    refine ⟨energy_df[0], List.getElem?_eq_getElem h, ?_⟩
    show energy_df.take 1 = [energy_df[0]]
    rw [List.take_one, List.head?_eq_getElem?, List.getElem?_eq_getElem h]
    rfl

/-- Witness for C8: three identical samples, index 0. -/
theorem predict_window_safe_witness :
    (predict_load_management
      (List.replicate 3 (⟨0, 50, 1000, 90, 1000, 90, true⟩ : EnergyData)) 0).isSome = true ∧
    (recent_data (List.replicate 3 ⟨0, 50, 1000, 90, 1000, 90, true⟩) 0).length =
      min 0 24 + 1 ∧
    (recent_data (List.replicate 3 ⟨0, 50, 1000, 90, 1000, 90, true⟩) 0).length ≤ 25 ∧
    (∀ j < (recent_data (List.replicate 3 (⟨0, 50, 1000, 90, 1000, 90, true⟩ : EnergyData)) 0).length,
      (recent_data (List.replicate 3 (⟨0, 50, 1000, 90, 1000, 90, true⟩ : EnergyData)) 0)[j]? =
        (List.replicate 3 (⟨0, 50, 1000, 90, 1000, 90, true⟩ : EnergyData))[0 - 24 + j]?) ∧
    (0 = 0 → ∃ a, (List.replicate 3 (⟨0, 50, 1000, 90, 1000, 90, true⟩ : EnergyData))[0]? = some a ∧
      recent_data (List.replicate 3 ⟨0, 50, 1000, 90, 1000, 90, true⟩) 0 = [a]) :=
  predict_window_safe (List.replicate 3 ⟨0, 50, 1000, 90, 1000, 90, true⟩) 0 (by decide)

end SolarMicrogrid
